import Mathlib

/-!
Verification of AgenticVisionForge: a shallow embedding of the repository's
core components (provider gateway, convergence evaluator, workflow graph
mutator, run orchestrator, run lifecycle controller) together with theorems
checking the specification's claims against the embedded code.

Every definition is translated from the Python source under `src/`.
Python strings are modelled as `String` / `List Char`; Python dicts that
the source treats as records become structures; Python exceptions become
`Except String`; ambient effects (HTTP transports, the filesystem) become
explicit parameters.  Places where the source performs an operation that
must raise at runtime (an attribute access a dict lacks, a keyword
argument the callee does not accept) are modelled as the corresponding
`Except.error`, with the unreachable continuation written out where it
clarifies the translation.
-/

namespace AgenticVisionForge

/-! ## Python string primitives

Executable models of the Python string operations the source uses:
`needle in hay` (substring test), `str.lower()` (ASCII case folding —
the source's phrase lists are all ASCII), `str.strip()`, and
`str.split('\n')`.  They operate on `List Char` so that the theorems can
reason about them by structural induction. -/

/-- `prefB needle l` : does `l` start with `needle`? -/
def prefB : List Char → List Char → Bool
  | [], _ => true
  | _ :: _, [] => false
  | a :: as, b :: bs => a = b && prefB as bs

/-- Python `needle in hay` for strings: `needle` occurs contiguously in `hay`.
`subB [] hay = true`, matching Python, where the empty string is in every string. -/
def subB (needle : List Char) : List Char → Bool
  | [] => prefB needle []
  | c :: t => prefB needle (c :: t) || subB needle t

/-- Substring test on `String`s, Python `needle in hay`. -/
def pyIn (needle hay : String) : Bool := subB needle.toList hay.toList

/-- Python `str.lower()`. `Char.toLower` folds ASCII letters, which covers
every phrase the source compares against. -/
def pyLower (s : String) : String := String.mk (s.toList.map Char.toLower)

/-- The whitespace set stripped by Python `str.strip()` (ASCII part). -/
def pyIsSpace (c : Char) : Bool :=
  c = ' ' || c = '\t' || c = '\n' || c = '\r' || c = '\x0b' || c = '\x0c'

/-- Python `str.strip()` on a character list. -/
def pyStrip (l : List Char) : List Char :=
  ((l.dropWhile pyIsSpace).reverse.dropWhile pyIsSpace).reverse

/-- Python `s.split(c)` for a single-character separator: always returns at
least one piece, pieces contain no separator. -/
def splitOnChar (c : Char) : List Char → List (List Char)
  | [] => [[]]
  | x :: xs =>
    match splitOnChar c xs with
    | [] => if x = c then [[], []] else [[x]]
    | h :: t => if x = c then [] :: h :: t else (x :: h) :: t

/-- Python `sep.join(pieces)` / list-of-lines join with `'\n'`. -/
def joinWith (sep : List Char) (ls : List (List Char)) : List Char :=
  List.intercalate sep ls

/-! ## Provider gateway (`src/ollama_text_utils.py`, `src/evaluation.py`)

Every provider call returns the dict `{system_prompt, user_prompt, response}`;
we model it as the structure `Exchange`.  The outcome of the underlying
transport (the `requests.post` / Gemini SDK call inside the `try`) is an
explicit parameter: `.ok body` is the extracted response text on success,
`.err msg` is any raised exception rendered by Python's `str(e)`. -/

structure Exchange where
  system_prompt : String
  user_prompt : String
  response : String
deriving DecidableEq, Repr

/-- Outcome of a transport/API call: success body or raised-exception text. -/
inductive Transport where
  | ok (body : String)
  | err (msg : String)
deriving DecidableEq, Repr

/-- `generate_text_ollama(prompt, config, system=None)`, lines 37-74 of
`src/ollama_text_utils.py`.  The `try` body posts the payload and extracts
`r.json().get("response","")` (modelled by `Transport.ok`); any exception is
caught and encoded as `"Error: " ++ str(e)`.  The `finally` block (model
unload and a 2 second sleep) performs no state visible here. -/
def generate_text_ollama (prompt : String) (system : Option String)
    (t : Transport) : Exchange :=
  match t with
  | .ok text =>
      { system_prompt := system.getD "", user_prompt := prompt, response := text }
  | .err e =>
      { system_prompt := system.getD "", user_prompt := prompt,
        response := "Error: " ++ e }

/-- `generate_text_gemini(prompt, config, system=None)`, lines 76-120 of
`src/ollama_text_utils.py`.  Same contract as the Ollama variant: the whole
body sits in a `try` whose `except` returns the error-string exchange. -/
def generate_text_gemini (prompt : String) (system : Option String)
    (t : Transport) : Exchange :=
  match t with
  | .ok text =>
      { system_prompt := system.getD "", user_prompt := prompt, response := text }
  | .err e =>
      { system_prompt := system.getD "", user_prompt := prompt,
        response := "Error: " ++ e }

/-- Analysis stage selector of `analyze_image_ollama` / `analyze_image_gemini`. -/
inductive VisionStage where
  | describe
  | analyze
deriving DecidableEq, Repr

/-- The system message `analyze_image_ollama` builds for each stage
(lines 15-27 of `src/evaluation.py`). -/
def analyze_system_message : VisionStage → String
  | .describe =>
      "You are an expert art critic and visual analyst. Describe this image in comprehensive detail, focusing on all visual elements present. Do not compare it to any goal or make suggestions - just describe what you see."
  | .analyze =>
      "You are a quality assurance expert. Compare this image to the goal and create two lists:\n1. Elements that align with the goal\n2. Elements that don't align or need improvement"

/-- The user prompt `analyze_image_ollama` builds for each stage
(lines 21, 28-34 of `src/evaluation.py`); the analyze stage interpolates
`config['current_goal']` and `config['image_description']`. -/
def analyze_user_prompt (stage : VisionStage) (current_goal image_description : String) : String :=
  match stage with
  | .describe =>
      "Provide a detailed description of this image, including all visual elements, composition, lighting, colors, and mood."
  | .analyze =>
      "Goal: " ++ current_goal ++ "\nPrevious Description: " ++ image_description ++
      "\n\nCreate two lists comparing this image to the goal:\n1. Elements that align with the goal\n2. Elements that don't align or need improvement"

/-- `analyze_image_ollama(image_path, config, stage)`, lines 9-61 of
`src/evaluation.py`.  The image file is read before the `try` block, so a
read failure propagates (first parameter); a transport failure inside the
`try` is caught and encoded into the response while the stage-built system
and user prompts are returned unchanged. -/
def analyze_image_ollama (stage : VisionStage) (current_goal image_description : String)
    (fileRead : Except String String) (t : Transport) : Except String Exchange :=
  match fileRead with
  | .error e => .error e
  | .ok _ =>
    let system_message := analyze_system_message stage
    let prompt := analyze_user_prompt stage current_goal image_description
    match t with
    | .ok text =>
        .ok { system_prompt := system_message, user_prompt := prompt, response := text }
    | .err e =>
        .ok { system_prompt := system_message, user_prompt := prompt,
              response := "Error: " ++ e }

/-! ## Convergence evaluator (`src/orchestrator.py`, lines 34-173)

`evaluate_quality` and its helpers are pure functions over the critique
strings and prompts.  Python's `set` iteration order is hash-based; we
model the word-set differences as duplicate-free lists in first-occurrence
order — no claim inspects those reason strings beyond existence.  The
`config` parameter of the source function is never read and is omitted. -/

/-- Duplicate-free sublist in first-occurrence order (model of iterating a
Python `set`/`Counter` built from the list). -/
def eraseDupsFirst (l : List String) : List String :=
  l.foldl (fun acc x => if acc.contains x then acc else acc ++ [x]) []

/-- `prompt.lower().split()`: lower-cased whitespace-separated words. -/
def pyWords (s : String) : List String :=
  ((pyLower s).split (fun c => pyIsSpace c)).filter (fun w => w ≠ "")

/-- `analyze_prompt_differences(prev_prompt, curr_prompt)`, lines 85-103.
`if not prev_prompt` is true for `None` and for the empty string. -/
def analyze_prompt_differences (prev_prompt : Option String) (curr_prompt : String) : String :=
  match prev_prompt with
  | none => "Initial prompt exploration"
  | some p =>
    if p = "" then "Initial prompt exploration"
    else
      let prev_words := pyWords p
      let curr_words := pyWords curr_prompt
      let added := eraseDupsFirst (curr_words.filter (fun w => !(prev_words.contains w)))
      let removed := eraseDupsFirst (prev_words.filter (fun w => !(curr_words.contains w)))
      let changes :=
        (if added ≠ [] then ["Added emphasis on: " ++ String.intercalate ", " added] else []) ++
        (if removed ≠ [] then ["Reduced emphasis on: " ++ String.intercalate ", " removed] else [])
      if changes = [] then "Refined existing elements"
      else String.intercalate "; " changes

/-- Improvement-indicator phrases of `compare_analyses`, lines 115. -/
def better_phrases : List String := ["better", "improved", "enhanced", "stronger", "clearer"]

/-- Regression-indicator phrases of `compare_analyses`, line 116. -/
def worse_phrases : List String := ["less", "weaker", "reduced", "lost", "missing"]

/-- `compare_analyses(prev_analysis, curr_analysis)`, lines 105-133; the
call site always passes a string for `prev_analysis`, for which
`if not prev_analysis` is the empty-string test. -/
def compare_analyses (prev_analysis curr_analysis : String) : String :=
  if prev_analysis = "" then "Initial image assessment"
  else
    let improvements := better_phrases.filter (fun p => pyIn p (pyLower curr_analysis))
    let regressions := worse_phrases.filter (fun p => pyIn p (pyLower curr_analysis))
    if improvements ≠ [] ∧ regressions = [] then
      "Improvements noted in: " ++ String.intercalate ", " improvements
    else if regressions ≠ [] ∧ improvements = [] then
      "Regressions noted in: " ++ String.intercalate ", " regressions
    else if improvements ≠ [] ∧ regressions ≠ [] then
      "Mixed results: improved " ++ String.intercalate ", " improvements ++
        " but regressed in " ++ String.intercalate ", " regressions
    else "Subtle changes with no clear improvement or regression"

/-- Issue phrases of `synthesize_learning`, line 148. -/
def issue_phrases : List String := ["missing", "lacks", "needs", "could use", "should have"]

/-- Improvement phrases of `synthesize_learning`, line 149 (same list as
`better_phrases`, repeated verbatim in the source). -/
def synth_improvement_phrases : List String := ["better", "improved", "enhanced", "stronger", "clearer"]

/-- `synthesize_learning(prev_analyses, curr_analysis, prev_prompt, curr_prompt)`,
lines 135-173: frequency-count fixed phrases across all analyses and keep
those recurring at least twice (`Counter` iteration in insertion order). -/
def synthesize_learning (prev_analyses : List String) (curr_analysis : String)
    (prev_prompt : Option String) (curr_prompt : String) : String :=
  if prev_analyses.length < 2 then "Insufficient data for synthesis"
  else
    let prompt_evolution := analyze_prompt_differences prev_prompt curr_prompt
    let allAnalyses := prev_analyses ++ [curr_analysis]
    let issue_occ := (allAnalyses.map
      (fun a => issue_phrases.filter (fun p => pyIn p (pyLower a)))).flatten
    let improv_occ := (allAnalyses.map
      (fun a => synth_improvement_phrases.filter (fun p => pyIn p (pyLower a)))).flatten
    let consistent_issues := (eraseDupsFirst issue_occ).filter (fun x => 2 ≤ issue_occ.count x)
    let recurring_improvements := (eraseDupsFirst improv_occ).filter (fun x => 2 ≤ improv_occ.count x)
    let synthesis :=
      (if consistent_issues ≠ [] then
        ["Persistent challenges: " ++ String.intercalate ", " consistent_issues] else []) ++
      (if recurring_improvements ≠ [] then
        ["Consistent improvements: " ++ String.intercalate ", " recurring_improvements] else []) ++
      (if prompt_evolution ≠ "" then ["Prompt evolution: " ++ prompt_evolution] else [])
    if synthesis = [] then "No clear patterns identified yet"
    else String.intercalate "; " synthesis

/-- Success phrases of `evaluate_quality`, lines 62-68. -/
def success_phrases : List String :=
  ["perfectly matches", "excellent match", "captures all elements",
   "achieves the goal", "outstanding representation"]

/-- Improvement phrases of `evaluate_quality`, lines 73-79. -/
def improvement_phrases : List String :=
  ["could be improved", "needs adjustment", "would benefit from",
   "consider adding", "should include"]

/-- `any(phrase in analysis.lower() for phrase in success_phrases)`. -/
def hasSuccessPhrase (analysis : String) : Bool :=
  success_phrases.any (fun p => pyIn p (pyLower analysis))

/-- `any(phrase in analysis.lower() for phrase in improvement_phrases)`. -/
def hasImprovementPhrase (analysis : String) : Bool :=
  improvement_phrases.any (fun p => pyIn p (pyLower analysis))

/-- `evaluate_quality(analysis, current_prompt, previous_prompt, config,
iteration, previous_analyses)`, lines 38-83, as the pure decision function
over critique strings.  `previous_analyses[-1]` on an empty list raises
`IndexError`, hence the `Except`.  Iterations 1-3 always continue; from
iteration 4 on, the success-phrase test runs first, then the
no-improvement-phrase test, each returning `(False, reason)`. -/
def evaluate_quality (analysis current_prompt : String) (previous_prompt : Option String)
    (iteration : Nat) (previous_analyses : List String) : Except String (Bool × String) :=
  if iteration = 1 then
    .ok (true, "Initial iteration establishing baseline image and prompt effectiveness")
  else if iteration = 2 then
    let prompt_changes := analyze_prompt_differences previous_prompt current_prompt
    match previous_analyses.getLast? with
    | none => .error "IndexError: list index out of range"
    | some prev =>
      let image_impact := compare_analyses prev analysis
      .ok (true, "Analyzing prompt-to-image relationship: " ++ prompt_changes ++
                 " resulted in " ++ image_impact)
  else if iteration = 3 then
    let synthesis := synthesize_learning previous_analyses analysis previous_prompt current_prompt
    .ok (true, "Synthesizing learnings from previous iterations: " ++ synthesis)
  else
    if hasSuccessPhrase analysis then
      .ok (false, "Analysis indicates perfect match based on comprehensive evaluation")
    else if !hasImprovementPhrase analysis then
      .ok (false, "No substantial improvements needed after thorough analysis")
    else
      .ok (true, "Continuing iterations based on identified areas for enhancement")

/-! ## Supporting lemmas on the string primitives -/

lemma prefB_map (f : Char → Char) :
    ∀ (n h : List Char), prefB n h = true → prefB (n.map f) (h.map f) = true
  | [], _, _ => rfl
  | _ :: _, [], hp => by simp [prefB] at hp
  | a :: as, b :: bs, hp => by
      simp only [prefB, Bool.and_eq_true, decide_eq_true_eq] at hp
      simp only [List.map, prefB, Bool.and_eq_true, decide_eq_true_eq]
      exact ⟨by rw [hp.1], prefB_map f as bs hp.2⟩

lemma subB_map (f : Char → Char) :
    ∀ (n h : List Char), subB n h = true → subB (n.map f) (h.map f) = true
  | n, [], hp => by
      simpa [subB, List.map] using prefB_map f n [] hp
  | n, c :: t, hp => by
      simp only [subB, Bool.or_eq_true] at hp
      rcases hp with hp | hp
      · have h1 := prefB_map f n (c :: t) hp
        simp only [List.map, subB, Bool.or_eq_true]
        exact Or.inl (by simpa using h1)
      · have h1 := subB_map f n t hp
        simp only [List.map, subB, Bool.or_eq_true]
        exact Or.inr h1

lemma toList_pyLower (s : String) : (pyLower s).toList = s.toList.map Char.toLower := rfl

/-- A critique containing the literal substring `"perfectly matches"` passes
the success-phrase test (the phrase is lower-case, so `.lower()` keeps the
occurrence intact). -/
lemma hasSuccessPhrase_of_perfectly_matches (a : String)
    (h : subB "perfectly matches".toList a.toList = true) :
    hasSuccessPhrase a = true := by
  have hmap := subB_map Char.toLower _ _ h
  have hfix : ("perfectly matches".toList.map Char.toLower) = "perfectly matches".toList := by
    decide
  rw [hfix] at hmap
  unfold hasSuccessPhrase success_phrases
  simp only [List.any_cons, Bool.or_eq_true]
  left
  unfold pyIn
  rw [toList_pyLower]
  exact hmap

/-! ## Claim theorems C1 and C2 -/

/-- C1: every text provider call (local Ollama backend or hosted Gemini
backend, and likewise the cited Ollama vision call) contains a raised
transport exception instead of propagating it: the returned exchange keeps
the request's system and user instructions unchanged and carries
`"Error: " ++ str(e)` as its response. -/
theorem claim_C1 (prompt : String) (system : Option String) (e : String)
    (stage : VisionStage) (goal desc img : String) :
    generate_text_ollama prompt system (.err e) =
      { system_prompt := system.getD "", user_prompt := prompt,
        response := "Error: " ++ e }
  ∧ generate_text_gemini prompt system (.err e) =
      { system_prompt := system.getD "", user_prompt := prompt,
        response := "Error: " ++ e }
  ∧ analyze_image_ollama stage goal desc (.ok img) (.err e) =
      .ok { system_prompt := analyze_system_message stage,
            user_prompt := analyze_user_prompt stage goal desc,
            response := "Error: " ++ e } :=
  ⟨rfl, rfl, rfl⟩

/-- C2: the convergence evaluator continues unconditionally at iterations 1,
2 and 3 (iteration 2 needs a non-empty prior-critique list, which the loop
guarantees; with an empty list the source raises `IndexError`); from
iteration 4 on it stops exactly when the critique contains a success phrase
or contains no improvement phrase, the success-phrase check taking priority
in the reason; in particular a critique containing `"perfectly matches"` at
iteration 5 stops. -/
theorem claim_C2 (a cp : String) (pp : Option String) (pa : List String) :
    evaluate_quality a cp pp 1 pa =
      .ok (true, "Initial iteration establishing baseline image and prompt effectiveness")
  ∧ (pa ≠ [] → ∃ r, evaluate_quality a cp pp 2 pa = .ok (true, r))
  ∧ (∃ r, evaluate_quality a cp pp 3 pa = .ok (true, r))
  ∧ (∀ it, 4 ≤ it →
      evaluate_quality a cp pp it pa =
        .ok (!(hasSuccessPhrase a || !hasImprovementPhrase a),
          if hasSuccessPhrase a then
            "Analysis indicates perfect match based on comprehensive evaluation"
          else if !hasImprovementPhrase a then
            "No substantial improvements needed after thorough analysis"
          else "Continuing iterations based on identified areas for enhancement"))
  ∧ (subB "perfectly matches".toList a.toList = true →
      evaluate_quality a cp pp 5 pa =
        .ok (false, "Analysis indicates perfect match based on comprehensive evaluation")) := by
  refine ⟨rfl, ?_, ⟨_, rfl⟩, ?_, ?_⟩
  · intro hpa
    obtain ⟨y, hy⟩ := Option.isSome_iff_exists.mp (List.getLast?_isSome.mpr hpa)
    refine ⟨"Analyzing prompt-to-image relationship: " ++ analyze_prompt_differences pp cp ++
      " resulted in " ++ compare_analyses y a, ?_⟩
    unfold evaluate_quality
    simp [hy]
  · intro it hit
    have h1 : it ≠ 1 := by omega
    have h2 : it ≠ 2 := by omega
    have h3 : it ≠ 3 := by omega
    cases hS : hasSuccessPhrase a <;> cases hI : hasImprovementPhrase a <;>
      simp [evaluate_quality, h1, h2, h3, hS, hI]
  · intro hsub
    have hS := hasSuccessPhrase_of_perfectly_matches a hsub
    simp [evaluate_quality, hS]

/-- Witness for C2: concrete instances exercising the non-empty-history
hypothesis at iteration 2, the iteration bound at 4, and the
`"perfectly matches"` stop at iteration 5. -/
theorem claim_C2_witness :
    (∃ r, evaluate_quality "ok" "p" none 2 ["prev"] = .ok (true, r))
  ∧ evaluate_quality "all fine" "p" none 4 [] =
      .ok (false, "No substantial improvements needed after thorough analysis")
  ∧ evaluate_quality "Scene perfectly matches the goal" "p" none 5 [] =
      .ok (false, "Analysis indicates perfect match based on comprehensive evaluation") := by
  refine ⟨(claim_C2 "ok" "p" none ["prev"]).2.1 (by decide), ?_, ?_⟩
  · have h := (claim_C2 "all fine" "p" none []).2.2.2.1 4 (by norm_num)
    rw [h]
    have h1 : hasSuccessPhrase "all fine" = false := by decide
    have h2 : hasImprovementPhrase "all fine" = false := by decide
    simp [h1, h2]
  · exact (claim_C2 "Scene perfectly matches the goal" "p" none []).2.2.2.2 (by decide)

/-! ## Workflow graph mutator (`src/generate_image.py`)

A ComfyUI workflow template is a JSON object mapping node ids to node
descriptors.  Python dicts preserve insertion order, so the workflow is an
association list; node inputs likewise.  Input values that matter to the
mutator are strings and integers.  Every node descriptor carries an
`inputs` dict (as all real templates do — the source indexes
`node["inputs"]` unconditionally). -/

inductive JVal where
  | str (s : String)
  | num (n : Int)
deriving DecidableEq, Repr

structure WNode where
  class_type : Option String
  inputs : List (String × JVal)
  meta_title : Option String
deriving DecidableEq, Repr

abbrev Workflow := List (String × WNode)

/-- Dict lookup `workflow[node_id]` / `.get(node_id)`. -/
def wfFind (wf : Workflow) (k : String) : Option WNode :=
  (wf.find? (fun p => p.1 = k)).map (fun p => p.2)

/-- `node["inputs"].get(key)`. -/
def inputsGet (n : WNode) (key : String) : Option JVal :=
  (n.inputs.find? (fun p => p.1 = key)).map (fun p => p.2)

/-- `"key" in node["inputs"]` after looking the node up. -/
def wfHasInput (wf : Workflow) (nid key : String) : Bool :=
  match wfFind wf nid with
  | some n => (inputsGet n key).isSome
  | none => false

/-- Dict assignment `node["inputs"][key] = v`: overwrite if present, append
otherwise. -/
def inputsSet (n : WNode) (key : String) (v : JVal) : WNode :=
  if n.inputs.any (fun p => p.1 = key) then
    { n with inputs := n.inputs.map (fun p => if p.1 = key then (key, v) else p) }
  else
    { n with inputs := n.inputs ++ [(key, v)] }

/-- `workflow[node_id]["inputs"][key] = v`. -/
def wfSetInput (wf : Workflow) (nid key : String) (v : JVal) : Workflow :=
  wf.map (fun p => if p.1 = nid then (p.1, inputsSet p.2 key v) else p)

/-- `find_node_by_class(workflow, class_type)`, lines 73-78: id of the first
node whose `class_type` equals the given tag. -/
def find_node_by_class (wf : Workflow) (class_type : String) : Option String :=
  (wf.find? (fun p => p.2.class_type = some class_type)).map (fun p => p.1)

/-- `find_prompt_node(workflow)`, lines 88-97: the source returns the tuple
`(node_id, None)` or `(None, message)` and the caller raises on the message;
this is the `Except` it encodes.  Finds the first `CLIPTextEncode` node
whose `text` input holds the placeholder. -/
def find_prompt_node (wf : Workflow) : Except String String :=
  match wf.find? (fun p => decide (p.2.class_type = some "CLIPTextEncode") &&
      decide (inputsGet p.2 "text" = some (JVal.str "PROMPT_PLACEHOLDER"))) with
  | some p => .ok p.1
  | none => .error "No CLIPTextEncode node with PROMPT_PLACEHOLDER found. Please set the text input to PROMPT_PLACEHOLDER in your workflow."

/-- Steps 2 and 3 of `find_seed_node` (lines 112-123): first node whose
`_meta.title` contains `"random"` case-insensitively, else first node with a
`noise_seed` input, else the fatal message.  Split out because step 1 falls
through to these when its id is falsy. -/
def find_seed_node_fallback (wf : Workflow) : Except String String :=
  match wf.find? (fun q => pyIn "random" (pyLower (q.2.meta_title.getD ""))) with
  | some q => .ok q.1
  | none =>
    match wf.find? (fun q => (inputsGet q.2 "noise_seed").isSome) with
    | some q => .ok q.1
    | none => .error "No random seed node found. Please ensure your workflow has a RandomNoise node or a node with noise_seed input."

/-- `find_seed_node(workflow)`, lines 99-123: try the `RandomNoise` class
(step 1 guards with Python truthiness, so an empty-string id falls through),
then title hint, then `noise_seed` input; as with `find_prompt_node`, the
source's `(id, None)` / `(None, message)` tuple is the encoded `Except`. -/
def find_seed_node (wf : Workflow) : Except String String :=
  match find_node_by_class wf "RandomNoise" with
  | some nid => if nid = "" then find_seed_node_fallback wf else .ok nid
  | none => find_seed_node_fallback wf

/-- The slot-resolution and mutation phase of `generate_image(prompt_text,
config, iteration)`, lines 130-153: resolve the three slots (raising the
named error when the prompt node, the `SaveImage` node or the seed node is
missing), then set the prompt text, the iteration-scoped filename prefix,
and — only when the resolved seed node has a `noise_seed` input — the fresh
random seed (injected here as `seed`).  The returned workflow is the graph
submitted to the backend queue by `get_images`. -/
def generate_image_mutate (wf : Workflow) (prompt_text : String) (iteration : Nat)
    (seed : Int) : Except String Workflow :=
  match find_prompt_node wf with
  | .error e => .error e
  | .ok prompt_node_id =>
    match find_node_by_class wf "SaveImage" with
    | none => .error "No SaveImage node found in workflow"
    | some save_node_id =>
      if save_node_id = "" then .error "No SaveImage node found in workflow"
      else
        match find_seed_node wf with
        | .error e => .error e
        | .ok seed_node_id =>
          let wf1 := wfSetInput wf prompt_node_id "text" (JVal.str prompt_text)
          let wf2 := wfSetInput wf1 save_node_id "filename_prefix"
            (JVal.str ("iteration_" ++ toString iteration))
          if wfHasInput wf2 seed_node_id "noise_seed" then
            .ok (wfSetInput wf2 seed_node_id "noise_seed" (JVal.num seed))
          else .ok wf2

lemma wfFind_cons (q : String × WNode) (t : Workflow) (k : String) :
    wfFind (q :: t) k = if q.1 = k then some q.2 else wfFind t k := by
  by_cases hq : q.1 = k
  · unfold wfFind
    rw [List.find?_cons_of_pos _ (by simp [hq]), if_pos hq]
    rfl
  · unfold wfFind
    rw [List.find?_cons_of_neg _ (by simp [hq]), if_neg hq]

/-- Setting an input on one node leaves every other node's entry untouched. -/
lemma wfFind_setInput_ne (wf : Workflow) (nid key : String) (v : JVal) (k : String)
    (h : k ≠ nid) : wfFind (wfSetInput wf nid key v) k = wfFind wf k := by
  induction wf with
  | nil => rfl
  | cons q t ih =>
    have hs : wfSetInput (q :: t) nid key v =
        (if q.1 = nid then (q.1, inputsSet q.2 key v) else q) :: wfSetInput t nid key v := rfl
    rw [hs]
    by_cases hq : q.1 = nid
    · rw [if_pos hq, wfFind_cons, wfFind_cons]
      have hqk : ¬ q.1 = k := fun hh => h (hh ▸ hq)
      rw [if_neg hqk, if_neg hqk]
      exact ih
    · rw [if_neg hq, wfFind_cons, wfFind_cons]
      by_cases hk : q.1 = k
      · rw [if_pos hk, if_pos hk]
      · rw [if_neg hk, if_neg hk]
        exact ih

/-! ## Concrete workflow templates used as test inputs -/

/-- A `CLIPTextEncode` node holding the placeholder (the instruction slot). -/
def promptNode : WNode :=
  { class_type := some "CLIPTextEncode",
    inputs := [("text", JVal.str "PROMPT_PLACEHOLDER")], meta_title := none }

/-- A `SaveImage` node (the output slot). -/
def saveNode : WNode :=
  { class_type := some "SaveImage", inputs := [], meta_title := none }

/-- A sampler found by the `"random"` title hint whose seed input is not
named `noise_seed`. -/
def seedlessRandomNode : WNode :=
  { class_type := some "KSampler",
    inputs := [("seed", JVal.num 5)], meta_title := some "Random Source" }

/-- Instruction and output slots resolve, no seed-like node at all. -/
def wfNoSeed : Workflow := [("1", promptNode), ("2", saveNode)]

/-- Empty template: no instruction slot. -/
def wfNoPrompt : Workflow := []

/-- Instruction slot only: no `SaveImage` node. -/
def wfOnlyPrompt : Workflow := [("1", promptNode)]

/-- All three slots resolve; the seed node is found by title hint but has no
`noise_seed` input. -/
def wfTitleSeed : Workflow :=
  [("1", promptNode), ("2", saveNode), ("3", seedlessRandomNode)]

/-! ## Claim C4 (corrected) and claim C10 -/

/-- C4 counterexample: on a template whose variation (seed) slot cannot be
resolved — no `RandomNoise` node, no title hint, no `noise_seed` input —
`generate_image` does not skip the seed mutation and proceed; it raises the
fatal "No random seed node found" error, refuting the claim that absence of
the variation slot is not an error. -/
theorem claim_C4_counterexample :
    generate_image_mutate wfNoSeed "a prompt" 1 7 =
      .error "No random seed node found. Please ensure your workflow has a RandomNoise node or a node with noise_seed input." := rfl

/-- C4 amended: failure to resolve any of the three slots — instruction,
output, or variation — is a fatal error naming the missing slot; in
particular absence of the variation slot is fatal too (seed mutation is
skipped only when a resolved seed node lacks a `noise_seed` input, the case
of claim C10). -/
theorem claim_C4 (wf : Workflow) (p : String) (it : Nat) (s : Int) :
    (∀ e, find_prompt_node wf = .error e → generate_image_mutate wf p it s = .error e)
  ∧ (∀ pid, find_prompt_node wf = .ok pid → find_node_by_class wf "SaveImage" = none →
      generate_image_mutate wf p it s = .error "No SaveImage node found in workflow")
  ∧ (∀ pid sid e, find_prompt_node wf = .ok pid →
      find_node_by_class wf "SaveImage" = some sid → sid ≠ "" →
      find_seed_node wf = .error e → generate_image_mutate wf p it s = .error e) := by
  refine ⟨?_, ?_, ?_⟩
  · intro e he
    unfold generate_image_mutate
    rw [he]
  · intro pid hpid hsave
    unfold generate_image_mutate
    rw [hpid, hsave]
  · intro pid sid e hpid hsave hne hseed
    unfold generate_image_mutate
    rw [hpid, hsave]
    dsimp only
    rw [if_neg hne, hseed]

/-- Witness for C4 (amended): the three fatal slot-resolution errors on
concrete templates. -/
theorem claim_C4_witness :
    generate_image_mutate wfNoPrompt "p" 2 3 =
      .error "No CLIPTextEncode node with PROMPT_PLACEHOLDER found. Please set the text input to PROMPT_PLACEHOLDER in your workflow."
  ∧ generate_image_mutate wfOnlyPrompt "p" 2 3 =
      .error "No SaveImage node found in workflow"
  ∧ generate_image_mutate wfNoSeed "p" 2 3 =
      .error "No random seed node found. Please ensure your workflow has a RandomNoise node or a node with noise_seed input." := by
  refine ⟨(claim_C4 wfNoPrompt "p" 2 3).1 _ rfl,
          (claim_C4 wfOnlyPrompt "p" 2 3).2.1 "1" rfl rfl,
          (claim_C4 wfNoSeed "p" 2 3).2.2 "1" "2" _ rfl rfl (by decide) rfl⟩

/-- C10: when the variation slot resolves to a node whose inputs lack a
`noise_seed` field, the mutator leaves that node's entry unchanged, still
applies the instruction-text and filename-prefix mutations, and returns the
graph for submission — the seed is silently not randomized. -/
theorem claim_C10 (wf : Workflow) (p : String) (it : Nat) (s : Int) (pid sid kid : String)
    (hp : find_prompt_node wf = .ok pid)
    (hs : find_node_by_class wf "SaveImage" = some sid)
    (hsne : sid ≠ "")
    (hk : find_seed_node wf = .ok kid)
    (hkp : kid ≠ pid) (hks : kid ≠ sid)
    (hnoseed : wfHasInput wf kid "noise_seed" = false) :
    generate_image_mutate wf p it s =
      .ok (wfSetInput (wfSetInput wf pid "text" (JVal.str p)) sid "filename_prefix"
            (JVal.str ("iteration_" ++ toString it)))
  ∧ wfFind (wfSetInput (wfSetInput wf pid "text" (JVal.str p)) sid "filename_prefix"
        (JVal.str ("iteration_" ++ toString it))) kid = wfFind wf kid := by
  have hframe : wfFind (wfSetInput (wfSetInput wf pid "text" (JVal.str p)) sid
      "filename_prefix" (JVal.str ("iteration_" ++ toString it))) kid = wfFind wf kid := by
    rw [wfFind_setInput_ne _ _ _ _ _ hks, wfFind_setInput_ne _ _ _ _ _ hkp]
  have hhas2 : wfHasInput (wfSetInput (wfSetInput wf pid "text" (JVal.str p)) sid
      "filename_prefix" (JVal.str ("iteration_" ++ toString it))) kid "noise_seed" = false := by
    unfold wfHasInput at hnoseed ⊢
    rw [hframe]
    exact hnoseed
  refine ⟨?_, hframe⟩
  unfold generate_image_mutate
  rw [hp, hs]
  dsimp only
  rw [if_neg hsne, hk]
  dsimp only
  simp only [hhas2, Bool.false_eq_true, if_false]

/-- Witness for C10: on `wfTitleSeed` the seed node `"3"` (found by its
`"Random Source"` title) has no `noise_seed` input; the mutated graph keeps
node `"3"` unchanged while the other two mutations are applied. -/
theorem claim_C10_witness :
    generate_image_mutate wfTitleSeed "lighthouse" 4 99 =
      .ok (wfSetInput (wfSetInput wfTitleSeed "1" "text" (JVal.str "lighthouse")) "2"
            "filename_prefix" (JVal.str ("iteration_" ++ toString 4)))
  ∧ wfFind (wfSetInput (wfSetInput wfTitleSeed "1" "text" (JVal.str "lighthouse")) "2"
        "filename_prefix" (JVal.str ("iteration_" ++ toString 4))) "3" = wfFind wfTitleSeed "3" :=
  claim_C10 wfTitleSeed "lighthouse" 4 99 "1" "2" "3" rfl rfl (by decide) rfl
    (by decide) (by decide) rfl

/-! ## Instruction extraction (`src/orchestrator.py` lines 27-30,
`src/ollama_text_utils.py` lines 29-35)

`understand_goal` derives the initial instruction from the provider
response by taking the last line of the stripped text (everything before it
is the analysis).  `extract_prompt_tags` implements
`re.search(r"<prompt>(.*?)</prompt>", text, re.DOTALL)`: content between
the first opening tag and the first closing tag after it (leftmost,
non-greedy), stripped; `None` when there is no match. -/

/-- Split around the first occurrence of `needle`: `(before, after)`;
`none` when `needle` does not occur. -/
def breakOn (needle : List Char) : List Char → Option (List Char × List Char)
  | [] => if prefB needle [] then some ([], []) else none
  | c :: t =>
    if prefB needle (c :: t) then some ([], (c :: t).drop needle.length)
    else (breakOn needle t).map (fun q => (c :: q.1, q.2))

/-- `extract_prompt_tags(text)`, lines 29-35 of `src/ollama_text_utils.py`. -/
def extract_prompt_tags (text : String) : Option String :=
  match breakOn "<prompt>".toList text.toList with
  | none => none
  | some (_, rest) =>
    match breakOn "</prompt>".toList rest with
    | none => none
    | some (content, _) => some (String.mk (pyStrip content))

/-- Lines 27-30 of `src/orchestrator.py` applied to a string response:
`lines = response.strip().split('\n')`, analysis = all but the last line
joined back, initial prompt = the last line. -/
def understand_goal_extract (response : String) : String × String :=
  let lines := splitOnChar '\n' (pyStrip response.toList)
  (String.intercalate "\n" (lines.dropLast.map String.mk),
   String.mk (lines.getLastD []))

lemma breakOn_none (n : List Char) : ∀ l, subB n l = false → breakOn n l = none
  | [], h => by
      have hp : prefB n [] = false := h
      simp [breakOn, hp]
  | c :: t, h => by
      have h1 : prefB n (c :: t) = false ∧ subB n t = false := by
        simpa [subB] using h
      simp [breakOn, h1.1, breakOn_none n t h1.2]

lemma splitOnChar_single (c : Char) : ∀ l, c ∉ l → splitOnChar c l = [l]
  | [], _ => rfl
  | x :: xs, h => by
      have hx : ¬ x = c := fun hh => h (by rw [hh]; exact List.mem_cons_self c xs)
      have hxs : c ∉ xs := fun hh => h (List.mem_cons_of_mem x hh)
      have ih := splitOnChar_single c xs hxs
      simp [splitOnChar, ih, hx]

/-! ## Claim C6 (corrected) -/

/-- C6 counterexample: for the marker-less two-line response
`"line1\nline2"` the orchestrator's extraction does not fall back to the
entire trimmed response — it keeps only the last line — and the tag
extractor returns `none` rather than any fallback. -/
theorem claim_C6_counterexample :
    (understand_goal_extract "line1\nline2").2 ≠ "line1\nline2"
  ∧ (understand_goal_extract "line1\nline2").2 = "line2"
  ∧ extract_prompt_tags "line1\nline2" = none := by
  refine ⟨by decide, by decide, ?_⟩
  rfl

/-- C6 amended: instruction extraction is total but marker-free: the tag
extractor returns `none` (no fallback) whenever the opening marker is
absent, and the orchestrator's extraction equals the entire stripped
response only when that response is single-line (in general it keeps just
the last line, as the counterexample shows). -/
theorem claim_C6 (text response : String) :
    (subB "<prompt>".toList text.toList = false → extract_prompt_tags text = none)
  ∧ ('\n' ∉ pyStrip response.toList →
      (understand_goal_extract response).2 = String.mk (pyStrip response.toList)) := by
  constructor
  · intro h
    unfold extract_prompt_tags
    rw [breakOn_none _ _ h]
  · intro h
    unfold understand_goal_extract
    rw [splitOnChar_single '\n' _ h]
    simp

/-- Witness for C6 (amended): a marker-less text yields `none` from the tag
extractor, and a single-line response's instruction is the whole stripped
response. -/
theorem claim_C6_witness :
    extract_prompt_tags "think of a lighthouse" = none
  ∧ (understand_goal_extract "  hello world  ").2 = String.mk (pyStrip "  hello world  ".toList) :=
  ⟨(claim_C6 "think of a lighthouse" "x").1 (by decide),
   (claim_C6 "x" "  hello world  ").2 (by decide)⟩

/-! ## The orchestrator's refinement call (`src/orchestrator.py` lines
252-258 against `src/ollama_text_utils.py` line 176)

`run_iterations` calls
`refine_prompt(current_prompt, analysis, config, iteration=..., previous_iterations=...)`,
but the imported `refine_prompt` is declared as
`refine_prompt(original_prompt, goal, image_description, alignment_analysis, config)`.
Python argument binding therefore raises `TypeError` before the function
body runs.  `bindPyCall` models CPython binding for a signature with no
defaults and no starred parameters. -/

/-- Python call binding: `positional` arguments bind left to right, then
every keyword must name a parameter (else `TypeError: unexpected keyword
argument`) that was not already bound positionally; finally every parameter
must be bound. -/
def bindPyCall (fname : String) (params : List String) (positional : Nat)
    (kwargs : List String) : Except String Unit :=
  if params.length < positional then
    .error ("TypeError: " ++ fname ++ " takes " ++ toString params.length ++
      " positional arguments but more were given")
  else
    match kwargs.find? (fun k => !(params.contains k)) with
    | some k => .error ("TypeError: " ++ fname ++ " got an unexpected keyword argument " ++ k)
    | none =>
      match kwargs.find? (fun k => (params.take positional).contains k) with
      | some k => .error ("TypeError: " ++ fname ++ " got multiple values for argument " ++ k)
      | none =>
        if (params.drop positional).all (fun q => kwargs.contains q) then .ok ()
        else .error ("TypeError: " ++ fname ++ " missing required positional arguments")

/-- Parameter list of `refine_prompt` (`src/ollama_text_utils.py` line 176). -/
def refine_prompt_params : List String :=
  ["original_prompt", "goal", "image_description", "alignment_analysis", "config"]

/-- The orchestrator's refinement call site bound against that signature:
three positional arguments (`current_prompt`, `analysis`, `config`) and the
keywords `iteration` and `previous_iterations`. -/
def refine_prompt_call_binding : Except String Unit :=
  bindPyCall "refine_prompt()" refine_prompt_params 3 ["iteration", "previous_iterations"]

/-! ## Run orchestrator (`src/orchestrator.py`, `run_iterations`)

The loop body (lines 199-266) per iteration: generate the image, analyze it
(the analysis is the returned exchange dict), decide continuation, write
`iteration_<n>.json`, and — when continuing — append to the in-memory
history and call `refine_prompt`.  The outcomes of the two network effects
are injected through `Env`; the cancellation marker's state is passed in as
`canceled_txt_present` (the loop never reads it).  The trace records, in
program order, the externally observable actions. -/

/-- The record written to `iteration_<n>.json` (lines 224-240); the critique
fields hold the exchange dict `analyze_image` returned. -/
structure LogData where
  iteration : Nat
  prompt_before : String
  analysis : Exchange
  image_path : String
  should_continue : Bool
  reason : String
  prompt_after : Option String
deriving DecidableEq, Repr

inductive Event where
  | writeGoalAnalysis
  | genCall (iteration : Nat)
  | analyzeCall (iteration : Nat)
  | writeLog (iteration : Nat) (data : LogData)
  | refineAttempt (iteration : Nat) (history : List LogData)
  | writeLogUpdate (iteration : Nat) (data : LogData)
deriving DecidableEq, Repr

inductive RunOutcome where
  | completed
  | raised (msg : String)
deriving DecidableEq, Repr

structure RunResult where
  trace : List Event
  outcome : RunOutcome
deriving DecidableEq, Repr

/-- Injected outcomes of the two network effects of the loop body. -/
structure Env where
  genImage : Nat → String → Except String String
  analyze : Nat → String → Except String Exchange

/-- The refinement step as the loop executes it: the call binding always
fails, so `refine_prompt`'s body is never entered; the `.ok` branch (what a
successfully bound call would return as the next prompt) is dead code.  The
value parameters record what the call site supplies. -/
def refine_prompt_call (_current_prompt : String) (_analysis : Exchange)
    (_iteration : Nat) (_previous_iterations : List LogData) : Except String String :=
  match refine_prompt_call_binding with
  | .error e => .error e
  | .ok _ => .ok ""

/-- `evaluate_quality` as the loop invokes it, where `analysis` and the
elements of `previous_analyses` are the dicts `analyze_image` returned (not
strings): iteration 1 returns before touching them; iteration 2 evaluates
`previous_analyses[-1]` (IndexError on an empty history) and then reaches
`curr_analysis.lower()` on a dict inside `compare_analyses`
(AttributeError); iteration 3 with fewer than two prior entries returns the
"Insufficient data" synthesis without touching the dicts, otherwise
`synthesize_learning` reaches `analysis.lower()` (AttributeError); every
iteration ≥ 4 reaches `analysis.lower()` immediately. -/
def evaluate_quality_onExchange (_analysis : Exchange) (_current_prompt : String)
    (_previous_prompt : Option String) (iteration : Nat)
    (previous_analyses : List Exchange) : Except String (Bool × String) :=
  if iteration = 1 then
    .ok (true, "Initial iteration establishing baseline image and prompt effectiveness")
  else if iteration = 2 then
    match previous_analyses.getLast? with
    | none => .error "IndexError: list index out of range"
    | some _ => .error "AttributeError: dict object has no attribute lower"
  else if iteration = 3 then
    if previous_analyses.length < 2 then
      .ok (true, "Synthesizing learnings from previous iterations: Insufficient data for synthesis")
    else .error "AttributeError: dict object has no attribute lower"
  else .error "AttributeError: dict object has no attribute lower"

/-- The `while iteration < max_iters` loop of `run_iterations`
(lines 199-266).  Arguments after `goal`: remaining iteration budget
(`max_iters - iteration` at entry), `current_prompt`, `iteration`,
`previous_prompt`, `previous_analyses`, `iteration_history`.  An uncaught
exception from any step aborts the run with the events so far; a
`should_continue = False` decision breaks out of the loop; both loop exits
(break and budget exhaustion) end in the same `completed` state — the
source records nothing distinguishing them. -/
def run_loop (env : Env) (canceled_txt_present : Bool) (goal : String) :
    Nat → String → Nat → Option String → List Exchange → List LogData → RunResult
  | 0, _, _, _, _, _ => { trace := [], outcome := .completed }
  | rem + 1, current_prompt, iteration, previous_prompt, previous_analyses, iteration_history =>
    let it := iteration + 1
    match env.genImage it current_prompt with
    | .error e => { trace := [.genCall it], outcome := .raised e }
    | .ok image_path =>
      match env.analyze it goal with
      | .error e => { trace := [.genCall it, .analyzeCall it], outcome := .raised e }
      | .ok analysis =>
        match evaluate_quality_onExchange analysis current_prompt previous_prompt it
            previous_analyses with
        | .error e => { trace := [.genCall it, .analyzeCall it], outcome := .raised e }
        | .ok (should_continue, reason) =>
          let d : LogData :=
            { iteration := it, prompt_before := current_prompt,
              analysis := analysis, image_path := image_path,
              should_continue := should_continue, reason := reason, prompt_after := none }
          if should_continue = false then
            { trace := [.genCall it, .analyzeCall it, .writeLog it d], outcome := .completed }
          else
            let history := iteration_history ++ [d]
            match refine_prompt_call current_prompt analysis it history with
            | .error e =>
              { trace := [.genCall it, .analyzeCall it, .writeLog it d, .refineAttempt it history],
                outcome := .raised e }
            | .ok next_prompt =>
              let d2 : LogData := { d with prompt_after := some next_prompt }
              let r := run_loop env canceled_txt_present goal rem next_prompt it
                (some current_prompt) (previous_analyses ++ [analysis]) history
              { trace := [.genCall it, .analyzeCall it, .writeLog it d, .refineAttempt it history,
                  .writeLogUpdate it d2] ++ r.trace,
                outcome := r.outcome }

/-- Python attribute access `.strip()` on the value the provider call
returned: the provider functions return a dict (`Exchange`), which has no
`strip` method. -/
def pyAttr_strip (_ : Exchange) : Except String String :=
  .error "AttributeError: dict object has no attribute strip"

/-- `understand_goal(goal, config)` of `src/orchestrator.py` (lines 10-32):
dispatch on the configured provider, then `response.strip()` on the
returned dict — which always raises, so the split/extraction
(`understand_goal_extract`) is dead code here. -/
def understand_goal_o (provider : String) (goalPrompt : String) (t : Transport) :
    Except String (String × String) :=
  if provider = "ollama" then
    match pyAttr_strip (generate_text_ollama goalPrompt none t) with
    | .error e => .error e
    | .ok s => .ok (understand_goal_extract s)
  else if provider = "gemini" then
    match pyAttr_strip (generate_text_gemini goalPrompt none t) with
    | .error e => .error e
    | .ok s => .ok (understand_goal_extract s)
  else .error ("ValueError: Unsupported text provider: " ++ provider)

/-- `run_iterations(config, goal, run_directory)` (lines 175-266): understand
the goal, write `goal_analysis.json`, then run the loop.  Because
`understand_goal` always raises `AttributeError`, every run aborts before
any file is written or any iteration starts. -/
def run_iterations_model (provider goal : String) (t : Transport) (env : Env)
    (canceled_txt_present : Bool) (max_iters : Nat) : RunResult :=
  match understand_goal_o provider goal t with
  | .error e => { trace := [], outcome := .raised e }
  | .ok p =>
    let r := run_loop env canceled_txt_present goal max_iters p.2 0 none [] []
    { trace := Event.writeGoalAnalysis :: r.trace, outcome := r.outcome }

/-- Every run of the orchestrator aborts inside `understand_goal` with the
`AttributeError`, whichever provider and transport outcome: the iteration
loop of the current source is unreachable from `run_iterations`. -/
lemma run_iterations_model_raises (provider goal : String) (t : Transport) (env : Env)
    (c : Bool) (mx : Nat) (h : provider = "ollama" ∨ provider = "gemini") :
    run_iterations_model provider goal t env c mx =
      { trace := [], outcome := .raised "AttributeError: dict object has no attribute strip" } := by
  rcases h with h | h <;> subst h <;> rfl

/-! ## Run lifecycle controller (`src/app.py`)

The run directory as the status and lifecycle endpoints observe it:
presence of the directory, the `started.txt` and `canceled.txt` markers, the
(filtered, sorted) artifact filenames under `generations/`, and the
`iteration_<n>.json` files together with their contents — `results_status`
reads only the filenames, never the contents. -/

structure RunDir where
  present : Bool
  started : Bool
  canceled : Bool
  generations : List String
  iterLogs : List (String × LogData)
deriving DecidableEq, Repr

structure StatusPayload where
  images : List String
  logs : List String
  done : Bool
  started : Bool
deriving DecidableEq, Repr

/-- `results_status(run_name)`, lines 243-296 of `src/app.py`: 404 (`none`)
when the run directory is missing; otherwise the image and log filename
lists, `started` = marker presence, and `done` = (image count ≥
`max_iterations`) or cancellation marker present.  Nothing else feeds
`done`: the iteration records' contents are not read. -/
def results_status (dir : RunDir) (max_iters : Nat) : Option StatusPayload :=
  if dir.present = false then none
  else some
    { images := dir.generations,
      logs := dir.iterLogs.map (fun p => p.1),
      done := decide (max_iters ≤ dir.generations.length) || dir.canceled,
      started := dir.started }

inductive StartResponse where
  | notFound
  | alreadyStarted
  | started
deriving DecidableEq, Repr

/-- `start_run(run_name)`, lines 164-187 of `src/app.py`: 404 when the run
directory is missing; an existing `started.txt` short-circuits to the
"Run already started" response without spawning the background thread;
otherwise a daemon thread running `background_run_iterations` is spawned
(the Bool — the only way the expensive iteration work can begin). -/
def start_run (dir : RunDir) : StartResponse × Bool :=
  if dir.present = false then (.notFound, false)
  else if dir.started then (.alreadyStarted, false)
  else (.started, true)

/-- `cancel_run(run_name)`, lines 334-343 of `src/app.py`: writes
`canceled.txt` when the run directory exists (Bool = success); nothing else
— no signal reaches the orchestrator. -/
def cancel_run (dir : RunDir) : RunDir × Bool :=
  if dir.present then ({ dir with canceled := true }, true) else (dir, false)

/-! ## Concrete orchestration inputs and loop-shape lemmas -/

/-- The exchange `envOk.analyze` returns. -/
def envOkExchange : Exchange :=
  { system_prompt := "sys", user_prompt := "user", response := "desc" }

/-- A benign environment: image generation and analysis always succeed. -/
def envOk : Env :=
  { genImage := fun n _ => .ok ("generations/iteration_" ++ toString n ++ ".png"),
    analyze := fun _ _ => .ok envOkExchange }

/-- The iteration-1 record `run_loop envOk _ "goal" _ "p0" 0 none [] []`
writes before its refinement attempt. -/
def dRecord : LogData :=
  { iteration := 1, prompt_before := "p0", analysis := envOkExchange,
    image_path := "generations/iteration_1.png", should_continue := true,
    reason := "Initial iteration establishing baseline image and prompt effectiveness",
    prompt_after := none }

/-- A run directory whose started marker exists. -/
def startedDir : RunDir :=
  { present := true, started := true, canceled := false,
    generations := ["iteration_1.png"], iterLogs := [] }

lemma refine_prompt_call_err (cp : String) (a : Exchange) (it : Nat) (h : List LogData) :
    refine_prompt_call cp a it h =
      .error "TypeError: refine_prompt() got an unexpected keyword argument iteration" := rfl

/-- Every unfolding of the loop body produces one of four event-trace
shapes; in particular a refinement attempt is always the last event and is
always preceded in the same body by the iteration's record write. -/
lemma run_loop_succ (env : Env) (m : Bool) (goal : String) (r : Nat) (cp : String)
    (it : Nat) (pp : Option String) (pas : List Exchange) (hist : List LogData) :
    ∃ tr out, run_loop env m goal (r + 1) cp it pp pas hist = { trace := tr, outcome := out }
  ∧ (tr = [.genCall (it + 1)]
     ∨ tr = [.genCall (it + 1), .analyzeCall (it + 1)]
     ∨ (∃ d : LogData, d.prompt_after = none ∧
        (tr = [.genCall (it + 1), .analyzeCall (it + 1), .writeLog (it + 1) d]
         ∨ tr = [.genCall (it + 1), .analyzeCall (it + 1), .writeLog (it + 1) d,
                 .refineAttempt (it + 1) (hist ++ [d])]))) := by
  rcases hg : env.genImage (it + 1) cp with e | img
  · refine ⟨[.genCall (it + 1)], .raised e, ?_, Or.inl rfl⟩
    simp [run_loop, hg]
  · rcases ha : env.analyze (it + 1) goal with e | analysis
    · refine ⟨[.genCall (it + 1), .analyzeCall (it + 1)], .raised e, ?_, Or.inr (Or.inl rfl)⟩
      simp [run_loop, hg, ha]
    · rcases he : evaluate_quality_onExchange analysis cp pp (it + 1) pas with e | pr
      · refine ⟨[.genCall (it + 1), .analyzeCall (it + 1)], .raised e, ?_, Or.inr (Or.inl rfl)⟩
        simp [run_loop, hg, ha, he]
      · obtain ⟨sc, reason⟩ := pr
        cases sc
        · refine ⟨[.genCall (it + 1), .analyzeCall (it + 1), .writeLog (it + 1)
              { iteration := it + 1, prompt_before := cp, analysis := analysis,
                image_path := img, should_continue := false, reason := reason,
                prompt_after := none }], .completed, ?_,
            Or.inr (Or.inr ⟨_, rfl, Or.inl rfl⟩)⟩
          simp [run_loop, hg, ha, he]
        · refine ⟨[.genCall (it + 1), .analyzeCall (it + 1), .writeLog (it + 1)
              { iteration := it + 1, prompt_before := cp, analysis := analysis,
                image_path := img, should_continue := true, reason := reason,
                prompt_after := none },
              .refineAttempt (it + 1) (hist ++
                [{ iteration := it + 1, prompt_before := cp, analysis := analysis,
                   image_path := img, should_continue := true, reason := reason,
                   prompt_after := none }])],
            .raised "TypeError: refine_prompt() got an unexpected keyword argument iteration",
            ?_, Or.inr (Or.inr ⟨_, rfl, Or.inr rfl⟩)⟩
          simp [run_loop, hg, ha, he, refine_prompt_call_err]

/-! ## Claims C5, C3, C7, C8, C9 -/

/-- C5 (code bug): the orchestrator's refinement call does supply the full
prior-iteration history (`previous_iterations=iteration_history`), but
`refine_prompt` is declared with parameters `(original_prompt, goal,
image_description, alignment_analysis, config)`: binding raises `TypeError`
before the body runs, so the refinement call never accepts the history —
every run aborts at its first refinement attempt (which carries the full
one-record history). -/
theorem claim_C5 :
    refine_prompt_call_binding =
      .error "TypeError: refine_prompt() got an unexpected keyword argument iteration"
  ∧ (run_loop envOk false "goal" 5 "p0" 0 none [] []).outcome =
      .raised "TypeError: refine_prompt() got an unexpected keyword argument iteration"
  ∧ Event.refineAttempt 1 [dRecord] ∈ (run_loop envOk false "goal" 5 "p0" 0 none [] []).trace := by
  refine ⟨rfl, rfl, ?_⟩
  decide

/-- C3 counterexample: with the cancellation marker present before the loop
starts, the loop still issues the iteration-1 generation call — the run is
not transitioned to a canceled state (its outcome is the refinement
`TypeError`); the marker went unobserved. -/
theorem claim_C3_counterexample :
    Event.genCall 1 ∈ (run_loop envOk true "goal" 3 "p0" 0 none [] []).trace
  ∧ (run_loop envOk true "goal" 3 "p0" 0 none [] []).outcome =
      .raised "TypeError: refine_prompt() got an unexpected keyword argument iteration" := by
  exact ⟨by decide, rfl⟩

/-- C3 amended: the orchestrator performs no cancellation check at any
iteration boundary — the loop's behaviour is identical whatever the
marker's state; the marker written by `cancel_run` is observed only by the
status endpoint, which thereafter reports the run as done. -/
theorem claim_C3 (env : Env) (m m' : Bool) (goal : String) (rem : Nat) (cp : String)
    (it : Nat) (pp : Option String) (pas : List Exchange) (hist : List LogData)
    (dir : RunDir) (mx : Nat) (hp : dir.present = true) :
    run_loop env m goal rem cp it pp pas hist = run_loop env m' goal rem cp it pp pas hist
  ∧ (results_status (cancel_run dir).1 mx).map StatusPayload.done = some true := by
  constructor
  · cases rem with
    | zero => rfl
    | succ r =>
      simp only [run_loop]
      rcases hg : env.genImage (it + 1) cp with e | img
      · rfl
      · rcases ha : env.analyze (it + 1) goal with e | analysis
        · rfl
        · rcases he : evaluate_quality_onExchange analysis cp pp (it + 1) pas with e | pr
          · rfl
          · obtain ⟨sc, reason⟩ := pr
            cases sc
            · rfl
            · rfl
  · simp [cancel_run, results_status, hp]

/-- Witness for C3 (amended): concrete loop runs with and without the
marker coincide, and a canceled run's status reports done. -/
theorem claim_C3_witness :
    run_loop envOk true "g" 2 "p" 0 none [] [] = run_loop envOk false "g" 2 "p" 0 none [] []
  ∧ (results_status (cancel_run startedDir).1 10).map StatusPayload.done = some true :=
  claim_C3 envOk true false "g" 2 "p" 0 none [] [] startedDir 10 rfl

/-- C7: whenever an execution of the iteration loop makes the refinement
call for iteration `n`, the durable record for iteration `n` (with no
next-prompt field) was already written earlier in the trace, and nothing
follows the attempt — the refinement `TypeError` aborts the run, so the
already-written record survives the failed refinement unchanged. -/
theorem claim_C7 (env : Env) (m : Bool) (goal : String) (rem : Nat) (cp : String)
    (it : Nat) (pp : Option String) (pas : List Exchange) (hist : List LogData)
    (n : Nat) (h : List LogData) (t1 t2 : List Event)
    (hsplit : (run_loop env m goal rem cp it pp pas hist).trace =
      t1 ++ Event.refineAttempt n h :: t2) :
    (∃ d : LogData, Event.writeLog n d ∈ t1 ∧ d.prompt_after = none) ∧ t2 = [] := by
  cases rem with
  | zero => exact absurd hsplit (by simp [run_loop])
  | succ r =>
    obtain ⟨tr, out, heq, hsh⟩ := run_loop_succ env m goal r cp it pp pas hist
    rw [heq] at hsplit
    dsimp at hsplit
    have hmem : Event.refineAttempt n h ∈ tr := by
      rw [hsplit]
      exact List.mem_append_right _ (List.mem_cons_self _ _)
    rcases hsh with h1 | h1 | ⟨d, hd, h1 | h1⟩
    · rw [h1] at hmem; simp at hmem
    · rw [h1] at hmem; simp at hmem
    · rw [h1] at hmem; simp at hmem
    · subst h1
      rcases t1 with _ | ⟨e1, t1⟩
      · simp at hsplit
      rcases t1 with _ | ⟨e2, t1⟩
      · simp at hsplit
      rcases t1 with _ | ⟨e3, t1⟩
      · simp at hsplit
      rcases t1 with _ | ⟨e4, t1⟩
      · simp only [List.cons_append, List.nil_append, List.cons.injEq] at hsplit
        obtain ⟨he1, he2, he3, hr, ht2⟩ := hsplit
        injection hr with hn hh
        refine ⟨⟨d, ?_, hd⟩, ht2.symm⟩
        rw [← hn, ← he3]
        simp
      · simp at hsplit

/-- Witness for C7: the concrete benign run's trace splits exactly before
its refinement attempt, with the iteration-1 record already written. -/
theorem claim_C7_witness :
    (∃ d : LogData, Event.writeLog 1 d ∈
        [Event.genCall 1, Event.analyzeCall 1, Event.writeLog 1 dRecord]
      ∧ d.prompt_after = none)
  ∧ ([] : List Event) = [] :=
  claim_C7 envOk false "goal" 5 "p0" 0 none [] [] 1 [dRecord]
    [Event.genCall 1, Event.analyzeCall 1, Event.writeLog 1 dRecord] [] (by decide)

/-- C8: a start call on a run whose started marker already exists returns
the "already started" response and spawns no background orchestration, so
the expensive iteration work is not performed a second time and no second
iteration-1 artifact can be created. -/
theorem claim_C8 (dir : RunDir) (hp : dir.present = true) (hs : dir.started = true) :
    start_run dir = (.alreadyStarted, false) := by
  unfold start_run
  rw [hp, hs]
  simp

/-- Witness for C8: a concrete already-started run directory. -/
theorem claim_C8_witness : start_run startedDir = (.alreadyStarted, false) :=
  claim_C8 startedDir rfl rfl

/-! ## Claim C9 (corrected)

Two run directories with the same artifact and log filenames but different
recorded convergence decisions: one exhausted its 5-iteration budget with
the evaluator always continuing, the other was stopped by the evaluator at
iteration 5.  `results_status` reads only filenames and markers, so the two
are observably identical to status callers. -/

/-- A recorded iteration log entry. -/
def iterRecord (n : Nat) (sc : Bool) (reason : String) : LogData :=
  { iteration := n, prompt_before := "p", analysis := envOkExchange,
    image_path := "generations/iteration_" ++ toString n ++ ".png",
    should_continue := sc, reason := reason, prompt_after := none }

/-- Five iterations, budget 5, evaluator always said continue: the loop
exited by exhausting the maximum count. -/
def exhaustedRunDir : RunDir :=
  { present := true, started := true, canceled := false,
    generations := ["iteration_1.png", "iteration_2.png", "iteration_3.png",
                    "iteration_4.png", "iteration_5.png"],
    iterLogs :=
      [("iteration_1.json", iterRecord 1 true "continue"),
       ("iteration_2.json", iterRecord 2 true "continue"),
       ("iteration_3.json", iterRecord 3 true "continue"),
       ("iteration_4.json", iterRecord 4 true "continue"),
       ("iteration_5.json", iterRecord 5 true
         "Continuing iterations based on identified areas for enhancement")] }

/-- Same budget and filenames, but the evaluator stopped at iteration 5:
the loop exited by the convergence decision. -/
def convergedRunDir : RunDir :=
  { present := true, started := true, canceled := false,
    generations := ["iteration_1.png", "iteration_2.png", "iteration_3.png",
                    "iteration_4.png", "iteration_5.png"],
    iterLogs :=
      [("iteration_1.json", iterRecord 1 true "continue"),
       ("iteration_2.json", iterRecord 2 true "continue"),
       ("iteration_3.json", iterRecord 3 true "continue"),
       ("iteration_4.json", iterRecord 4 true "continue"),
       ("iteration_5.json", iterRecord 5 false
         "Analysis indicates perfect match based on comprehensive evaluation")] }

/-- A run the evaluator stopped below the budget: two artifacts of a
3-iteration budget. -/
def convergedBelowDir : RunDir :=
  { present := true, started := true, canceled := false,
    generations := ["iteration_1.png", "iteration_2.png"],
    iterLogs :=
      [("iteration_1.json", iterRecord 1 true "continue"),
       ("iteration_2.json", iterRecord 2 false
         "Analysis indicates perfect match based on comprehensive evaluation")] }

/-- C9 counterexample: an exhausted run and an evaluator-stopped run with
the same filenames are different run states (their recorded convergence
decisions differ) yet produce identical status responses — budget
exhaustion is not observably distinct from convergence to status callers. -/
theorem claim_C9_counterexample :
    exhaustedRunDir ≠ convergedRunDir
  ∧ results_status exhaustedRunDir 5 = results_status convergedRunDir 5 :=
  ⟨by decide, rfl⟩

/-- C9 amended: the source keeps no terminal state at all; the status
endpoint's `done` flag is true exactly when the artifact count has reached
the configured maximum or the cancellation marker exists.  Exhaustion is
thus reported done, while an evaluator stop below the maximum reports
`done = false` — indistinguishable from a still-running run — and an
evaluator stop at the maximum is indistinguishable from exhaustion. -/
theorem claim_C9 (dir : RunDir) (mx : Nat) (hp : dir.present = true) :
    (mx ≤ dir.generations.length →
      (results_status dir mx).map StatusPayload.done = some true)
  ∧ (dir.canceled = false → dir.generations.length < mx →
      (results_status dir mx).map StatusPayload.done = some false) := by
  constructor
  · intro hmx
    simp [results_status, hp, hmx]
  · intro hc hlt
    simp [results_status, hp, hc]
    omega

/-- Witness for C9 (amended): the exhausted run reports done; the
evaluator-stopped run below budget reports not done. -/
theorem claim_C9_witness :
    (results_status exhaustedRunDir 5).map StatusPayload.done = some true
  ∧ (results_status convergedBelowDir 3).map StatusPayload.done = some false :=
  ⟨(claim_C9 exhaustedRunDir 5 rfl).1 (by decide),
   (claim_C9 convergedBelowDir 3 rfl).2 rfl (by decide)⟩

end AgenticVisionForge
